import Mathlib

/-!
Verification of the document numbering and ledger subsystem of the Paperbean
invoice/purchase-order generator (`app.py`).

The Python source is shallowly embedded: Python strings are Lean `String`s
(reasoned about through their `List Char` data), Python lists are Lean lists,
the two Supabase tables (`invoices`, `purchase_orders`) are lists of row
structures kept in insertion order (Supabase's `created_at` column is
monotone in insertion order, so "order by created_at desc" is list reversal),
and the fallible Supabase/network calls are modelled by `Except`/`Bool`
parameters describing their outcome.  Python `datetime` values produced by
`datetime.combine(date, datetime.min.time())` are modelled by a `Date`
structure (year/month/day) -- all datetimes the app manipulates are at
midnight.  Integer amounts from `st.number_input(min_value=0, step=1000)`
are modelled as `Nat`; the `float(...)` casts in the code are exact on them.
-/

namespace Paperbean

/-! ## Python string primitives -/

/-- ASCII whitespace recognised by Python's `str.split()` / `str.strip()`
(space, tab, newline, carriage return, vertical tab, form feed). -/
def pyIsSpace (c : Char) : Bool :=
  c = ' ' || c = '\t' || c = '\n' || c = '\r' || c = '\x0b' || c = '\x0c'

/-- Split a character list at every whitespace character, keeping empty
chunks (the splitting core of Python's `str.split()`). -/
def splitOnSpace : List Char → List (List Char)
  | [] => [[]]
  | c :: cs =>
    if pyIsSpace c then [] :: splitOnSpace cs
    else
      match splitOnSpace cs with
      | [] => [[c]]
      | t :: ts => (c :: t) :: ts

/-- Python `str.split()` (no separator argument): split on whitespace runs
and drop the empty chunks. -/
def pySplit (l : List Char) : List (List Char) :=
  (splitOnSpace l).filter (fun t => !t.isEmpty)

/-- Python `str.strip()`: drop leading and trailing whitespace. -/
def pyStrip (l : List Char) : List Char :=
  (l.dropWhile pyIsSpace).rdropWhile pyIsSpace

/-- Python `str.replace(a, b)` for single characters. -/
def pyReplace (s : String) (a b : Char) : String :=
  String.mk (s.data.map (fun c => if c = a then b else c))

/-! ## `make_initials` (app.py lines 39-46) -/

/-- `make_initials(name)`: tokenize `name.strip().split()` (the list
comprehension `[p for p in ... if p]` re-filters empties), then:
no token -> `"XX"`; one token -> its first two characters upper-cased;
two or more tokens -> upper-cased first characters of the first and the
last token.  Python's `.upper()` is modelled on ASCII by `Char.toUpper`. -/
def make_initials (name : String) : String :=
  let parts := (pySplit (pyStrip name.data)).filter (fun p => !p.isEmpty)
  match parts with
  | [] => "XX"
  | [s] => String.mk ((s.take 2).map Char.toUpper)
  | s :: rest =>
    String.mk (((s.take 1) ++ ((s :: rest).getLastD []).take 1).map Char.toUpper)

/-! ## Decimal rendering (Python `str(n)` and zero padding) -/

/-- Fuel-driven core of decimal rendering (fuel makes it structurally
recursive, hence kernel-computable). -/
def natCharsAux : Nat → Nat → List Char
  | 0, _ => []
  | fuel + 1, n =>
    if n = 0 then [] else natCharsAux fuel (n / 10) ++ [Nat.digitChar (n % 10)]

/-- Decimal digits of `n`, most significant first: Python `str(n)` for a
nonnegative int (no padding, no leading zeros except for `0` itself). -/
def natChars (n : Nat) : List Char :=
  if n = 0 then ['0'] else natCharsAux n n

/-- Python `str(n)` / f-string `{n}` for a nonnegative int. -/
def pyStr (n : Nat) : String := String.mk (natChars n)

/-- Left-pad a character list with `'0'` up to width `k`:
together with `natChars` this is Python's `f"{n:0kd}"`. -/
def padZeros (k : Nat) (l : List Char) : List Char :=
  List.replicate (k - l.length) '0' ++ l

/-- The two decimal digits of `n < 100` (`f"{n:02d}"` on that domain);
used for months and days of valid dates. -/
def pad2 (n : Nat) : List Char :=
  [Nat.digitChar (n / 10 % 10), Nat.digitChar (n % 10)]

/-- The four decimal digits of `n < 10000` (`f"{n:04d}"` on that domain);
used for years, which Python bounds by 9999. -/
def pad4 (n : Nat) : List Char :=
  [Nat.digitChar (n / 1000 % 10), Nat.digitChar (n / 100 % 10),
   Nat.digitChar (n / 10 % 10), Nat.digitChar (n % 10)]

/-! ## Dates -/

/-- A Python `datetime` at midnight (the app always builds its datetimes
with `datetime.combine(d, datetime.min.time())`). -/
structure Date where
  year : Nat
  month : Nat
  day : Nat
deriving DecidableEq

/-- The ranges Python's `datetime` enforces by construction (day upper
bound relaxed to 31). -/
def ValidDate (d : Date) : Prop :=
  1 ≤ d.year ∧ d.year ≤ 9999 ∧ 1 ≤ d.month ∧ d.month ≤ 12 ∧ 1 ≤ d.day ∧ d.day ≤ 31

instance (d : Date) : Decidable (ValidDate d) := by
  unfold ValidDate; exact inferInstance

/-- Character data of `datetime.isoformat()` for a midnight datetime:
`YYYY-MM-DDT00:00:00`. -/
def isoChars (d : Date) : List Char :=
  pad4 d.year ++ '-' :: (pad2 d.month ++ '-' :: (pad2 d.day ++
    'T' :: ['0', '0', ':', '0', '0', ':', '0', '0']))

/-- `datetime.isoformat()` for a midnight datetime. -/
def isoDateTime (d : Date) : String := String.mk (isoChars d)

/-! ## Roman months and document numbers (app.py lines 31-37, 65-69, 138-142) -/

/-- The `ROMAN` lookup table. -/
def ROMAN (m : Nat) : Option String :=
  match m with
  | 1 => some "I" | 2 => some "II" | 3 => some "III" | 4 => some "IV"
  | 5 => some "V" | 6 => some "VI" | 7 => some "VII" | 8 => some "VIII"
  | 9 => some "IX" | 10 => some "X" | 11 => some "XI" | 12 => some "XII"
  | _ => none

/-- `to_roman_month(dt)`: `ROMAN.get(dt.month, str(dt.month))`. -/
def to_roman_month (dt : Date) : String :=
  (ROMAN dt.month).getD (pyStr dt.month)

/-- `build_invoice_number(initials, seq, dt)`:
`f"{seq:03d}/INV-{initials}/{roman}/{year}"`. -/
def build_invoice_number (initials : String) (seq : Nat) (dt : Date) : String :=
  String.mk (padZeros 3 (natChars seq)) ++ "/INV-" ++ initials ++ "/" ++
    to_roman_month dt ++ "/" ++ pyStr dt.year

/-- `build_po_number(initials, seq, dt)`:
`f"{seq:03d}/PO-{initials}/{roman}/{year}"`. -/
def build_po_number (initials : String) (seq : Nat) (dt : Date) : String :=
  String.mk (padZeros 3 (natChars seq)) ++ "/PO-" ++ initials ++ "/" ++
    to_roman_month dt ++ "/" ++ pyStr dt.year

/-! ## Ledger rows and tables (app.py lines 71-96, 144-160) -/

/-- A row of the `invoices` table, with the fields `save_invoice_record`
inserts.  `invoice_date` is the stored ISO string; it is `Option` because
the reading code guards against null with `r["invoice_date"] or ""`. -/
structure InvoiceRow where
  name : String
  initials : String
  seq : Nat
  invoice_no : String
  invoice_date : Option String
  due_date : String
  template : String
  total : Nat
  pdf_path : String
  bank : String
  account_name : String
  account_no : String
  swift : String
  currency : String
deriving DecidableEq

/-- A row of the `purchase_orders` table, with the fields `save_po_record`
inserts. -/
structure PORow where
  vendor_name : String
  initials : String
  seq : Nat
  po_no : String
  po_date : Option String
  template : String
  total : Nat
  pdf_url : String
  issuer_name : String
  issuer_address : String
  currency : String
deriving DecidableEq

/-- The two Supabase tables, each kept in insertion order (`created_at`
order). -/
structure DB where
  invoices : List InvoiceRow
  purchase_orders : List PORow
deriving DecidableEq

/-- `save_invoice_record(...)`: build the row dict (dates stored via
`.isoformat()`) and insert it into the `invoices` table. -/
def save_invoice_record (name initials : String) (seq : Nat)
    (invoice_no : String) (invoice_date due_date : Date)
    (template : String) (total : Nat)
    (pdf_path bank account_name account_no swift currency_symbol : String)
    (db : DB) : DB :=
  { db with
    invoices := db.invoices ++
      [{ name := name, initials := initials, seq := seq,
         invoice_no := invoice_no,
         invoice_date := some (isoDateTime invoice_date),
         due_date := isoDateTime due_date, template := template,
         total := total, pdf_path := pdf_path, bank := bank,
         account_name := account_name, account_no := account_no,
         swift := swift, currency := currency_symbol }] }

/-- `save_po_record(...)`: build the row dict and insert it into the
`purchase_orders` table. -/
def save_po_record (vendor_name initials : String) (seq : Nat)
    (po_no : String) (po_date : Date) (template : String) (total : Nat)
    (pdf_url issuer_name issuer_address currency_symbol : String)
    (db : DB) : DB :=
  { db with
    purchase_orders := db.purchase_orders ++
      [{ vendor_name := vendor_name, initials := initials, seq := seq,
         po_no := po_no, po_date := some (isoDateTime po_date),
         template := template, total := total, pdf_url := pdf_url,
         issuer_name := issuer_name, issuer_address := issuer_address,
         currency := currency_symbol }] }

/-- Python `needle in hay` for strings: substring containment. -/
def pyInStr (needle hay : String) : Bool :=
  decide (needle.data <:+: hay.data)

/-- `get_next_sequence(initials, year)` (app.py lines 48-63): select
`seq, invoice_date` from `invoices` where `initials` matches; return 1 on
no rows; otherwise keep the rows whose date string contains `str(year)`
as a substring, return 1 if none and `max(seq) + 1` otherwise. -/
def get_next_sequence (invoices : List InvoiceRow) (initials : String)
    (year : Nat) : Nat :=
  let rows := invoices.filter (fun r => r.initials == initials)
  if rows.isEmpty then 1
  else
    let filtered := rows.filter
      (fun r => pyInStr (pyStr year) (r.invoice_date.getD ""))
    if filtered.isEmpty then 1
    else (filtered.map (fun r => r.seq)).foldl Nat.max 0 + 1

/-- `get_next_po_sequence(initials, year)` (app.py lines 123-136): the same
computation over the `purchase_orders` table and its `po_date` column. -/
def get_next_po_sequence (purchase_orders : List PORow) (initials : String)
    (year : Nat) : Nat :=
  let rows := purchase_orders.filter (fun r => r.initials == initials)
  if rows.isEmpty then 1
  else
    let filtered := rows.filter
      (fun r => pyInStr (pyStr year) (r.po_date.getD ""))
    if filtered.isEmpty then 1
    else (filtered.map (fun r => r.seq)).foldl Nat.max 0 + 1

/-- `fetch_history(limit)` (app.py lines 94-96): all invoice rows, ordered
by `created_at` descending, limited to `limit`. -/
def fetch_history (invoices : List InvoiceRow) (limit : Nat) : List InvoiceRow :=
  invoices.reverse.take limit

/-- The remittance dict returned by `get_last_remittance`; the empty Python
dict `{}` corresponds to all-empty fields (callers read it only through
`.get(key, "")`). -/
structure Remittance where
  bank : String
  account_name : String
  account_no : String
  swift : String
deriving DecidableEq

/-- The empty Python dict, as read through `.get(key, "")`. -/
def emptyRemittance : Remittance := ⟨"", "", "", ""⟩

/-- `get_last_remittance(name)` (app.py lines 98-117).  The Supabase call
may raise; its outcome is the `query` parameter carrying either the error
or the full `invoices` table, over which the `.eq("name", name)`,
`.order("created_at", desc=True)`, `.limit(1)` chain is interpreted.
The function has no `try`/`except`, so an error propagates (`Except.error`);
the `if not name` guard fires before the query is issued. -/
def get_last_remittance (name : String)
    (query : Except String (List InvoiceRow)) : Except String Remittance :=
  if name = "" then .ok emptyRemittance
  else
    match query with
    | .error e => .error e
    | .ok rows =>
      match (rows.filter (fun r => r.name == name)).reverse with
      | [] => .ok emptyRemittance
      | r :: _ => .ok ⟨r.bank, r.account_name, r.account_no, r.swift⟩

/-! ## Submit handlers (app.py lines 466-526 and 628-745) -/

/-- A line item as held in widget state: name, free-text description,
nonnegative integer amount. -/
structure Item where
  name : String
  desc : String
  amount : Nat
deriving DecidableEq

/-- The payload dict handed to `create_pdf_bytes` (the renderer is an
external collaborator; only the payload is modelled). -/
structure PdfData where
  invoice_no : String
  invoice_date : Date
  due_date : Date
  bill_to : String
  bill_address : String
  items : List Item
  total : Nat
  currency_symbol : String
  bank : String
  account_name : String
  account_no : String
  swift : String
  vendor_name : String
  vendor_address : String
deriving DecidableEq

/-- Supabase Storage public URL for an object (abstract locator: the model
only needs it to be a string determined by bucket and filename). -/
def publicUrl (bucket filename : String) : String :=
  "https://supabase.storage/" ++ bucket ++ "/" ++ filename

/-- Observable outcome of one invoice submission. -/
structure SubmitResult where
  db : DB
  pdf_filename : String
  pdf_url : Option String
  data : PdfData
  invoice_no : String
  seq : Nat
  total : Nat
deriving DecidableEq

/-- The invoice submit handler (app.py lines 628-729), from the synced
widget items to the ledger write.  `uploadOk` is the outcome of the
`bucket.upload` call: the code wraps it in `try`/`except` and on failure
sets `pdf_url = None`, then proceeds; `save_invoice_record` receives
`pdf_url or ""`.  `now` is `datetime.now().strftime("%Y%m%d%H%M%S%f")`
at call time.  (`create_pdf_bytes` failures abort earlier via `st.stop()`
and are outside this model.) -/
def invoiceSubmit (db : DB) (line_items : List Item)
    (vendor_name vendor_address name bill_address : String)
    (bank account_name account_no swift : String)
    (currency_symbol template_choice : String)
    (invoice_date due_date : Date) (save_pdf uploadOk : Bool)
    (now : String) : SubmitResult :=
  let cleaned_items := line_items.filter (fun it => it.name != "")
  let total := (cleaned_items.map (fun it => it.amount)).sum
  let vendor_clean := String.mk (pyStrip vendor_name.data)
  let vendor_initials := make_initials vendor_clean
  let seq := get_next_sequence db.invoices vendor_initials invoice_date.year
  let invoice_no := build_invoice_number vendor_initials seq invoice_date
  let data : PdfData :=
    { invoice_no := invoice_no, invoice_date := invoice_date,
      due_date := due_date,
      bill_to := if name = "" then "Unnamed" else name,
      bill_address := bill_address, items := cleaned_items, total := total,
      currency_symbol := currency_symbol, bank := bank,
      account_name := account_name, account_no := account_no, swift := swift,
      vendor_name := vendor_name, vendor_address := vendor_address }
  let pdf_filename := pyReplace invoice_no '/' '-' ++ "_" ++ now ++ ".pdf"
  let pdf_url : Option String :=
    if uploadOk then some (publicUrl "invoices" pdf_filename) else none
  let db' :=
    if save_pdf then
      save_invoice_record vendor_name vendor_initials seq invoice_no
        invoice_date due_date template_choice total (pdf_url.getD "")
        bank account_name account_no swift currency_symbol db
    else db
  { db := db', pdf_filename := pdf_filename, pdf_url := pdf_url,
    data := data, invoice_no := invoice_no, seq := seq, total := total }

/-- Observable outcome of one purchase-order submission. -/
structure PoSubmitResult where
  db : DB
  filename : String
  po_no : String
  seq : Nat
  total : Nat
deriving DecidableEq

/-- The PO submit handler (app.py lines 468-526).  The items are used as
entered (no name filtering); the filename is
`f"{po_no.replace('/', '-')}.pdf"` -- it does not involve the clock, so
the ambient timestamp `now` is an unused parameter. -/
def poSubmit (db : DB) (po_items : List Item)
    (vendor_name issuer_name issuer_address currency_symbol template_po : String)
    (po_date : Date) (save_po : Bool) (now : String) : PoSubmitResult :=
  let total := (po_items.map (fun it => it.amount)).sum
  let initials := make_initials vendor_name
  let seq := get_next_po_sequence db.purchase_orders initials po_date.year
  let po_no := build_po_number initials seq po_date
  let filename := pyReplace po_no '/' '-' ++ ".pdf"
  let pdf_url := publicUrl "pos" filename
  let db' :=
    if save_po then
      save_po_record vendor_name initials seq po_no po_date template_po total
        pdf_url issuer_name issuer_address currency_symbol db
    else db
  { db := db', filename := filename, po_no := po_no, seq := seq,
    total := total }

/-! ## Decimal rendering lemmas -/

theorem natCharsAux_zero (f : Nat) : natCharsAux f 0 = [] := by
  cases f <;> simp [natCharsAux]

theorem natCharsAux_congr (n : Nat) :
    ∀ f g : Nat, n ≤ f → n ≤ g → natCharsAux f n = natCharsAux g n := by
  induction n using Nat.strong_induction_on with
  | _ n ih =>
    intro f g hf hg
    cases n with
    | zero => rw [natCharsAux_zero, natCharsAux_zero]
    | succ m =>
      obtain ⟨f', rfl⟩ : ∃ f', f = f' + 1 := ⟨f - 1, by omega⟩
      obtain ⟨g', rfl⟩ : ∃ g', g = g' + 1 := ⟨g - 1, by omega⟩
      simp only [natCharsAux, if_neg (Nat.succ_ne_zero m)]
      have hdiv : (m + 1) / 10 < m + 1 := Nat.div_lt_self (Nat.succ_pos m) (by norm_num)
      rw [ih ((m + 1) / 10) hdiv f' g' (by omega) (by omega)]

theorem natChars_small {n : Nat} (h1 : 1 ≤ n) (h9 : n ≤ 9) :
    natChars n = [Nat.digitChar n] := by
  obtain ⟨m, rfl⟩ : ∃ m, n = m + 1 := ⟨n - 1, by omega⟩
  rw [natChars, if_neg (Nat.succ_ne_zero m)]
  show natCharsAux (m + 1) (m + 1) = _
  simp only [natCharsAux, if_neg (Nat.succ_ne_zero m)]
  rw [Nat.div_eq_of_lt (by omega), natCharsAux_zero,
    Nat.mod_eq_of_lt (by omega), List.nil_append]

theorem natChars_step10 {n : Nat} (h : 10 ≤ n) :
    natChars n = natChars (n / 10) ++ [Nat.digitChar (n % 10)] := by
  obtain ⟨m, rfl⟩ : ∃ m, n = m + 1 := ⟨n - 1, by omega⟩
  have hdiv10 : (m + 1) / 10 ≠ 0 := by
    have : 1 ≤ (m + 1) / 10 := Nat.one_le_div_iff (by norm_num) |>.mpr h
    omega
  conv_lhs => rw [natChars, if_neg (Nat.succ_ne_zero m)]
  show natCharsAux (m + 1) (m + 1) = _
  simp only [natCharsAux, if_neg (Nat.succ_ne_zero m)]
  have hdlt : (m + 1) / 10 < m + 1 := Nat.div_lt_self (Nat.succ_pos m) (by norm_num)
  rw [natCharsAux_congr ((m + 1) / 10) m ((m + 1) / 10) (by omega) le_rfl]
  rw [natChars, if_neg hdiv10]

theorem natChars_four {y : Nat} (hy1 : 1000 ≤ y) (hy2 : y ≤ 9999) :
    natChars y = pad4 y := by
  have e2 : y / 10 / 10 = y / 100 := by
    rw [Nat.div_div_eq_div_mul]
  have e3 : y / 100 / 10 = y / 1000 := by
    rw [Nat.div_div_eq_div_mul]
  rw [natChars_step10 (by omega)]
  rw [natChars_step10 (show 10 ≤ y / 10 by omega)]
  rw [e2, natChars_step10 (show 10 ≤ y / 100 by omega)]
  rw [e3, natChars_small (show 1 ≤ y / 1000 by omega) (show y / 1000 ≤ 9 by omega)]
  simp [pad4, Nat.mod_eq_of_lt (show y / 1000 < 10 by omega)]

theorem digitChar_isDigit : ∀ m, m < 10 → (Nat.digitChar m).isDigit = true := by
  decide

theorem digitChar_inj :
    ∀ a, a < 10 → ∀ b, b < 10 → Nat.digitChar a = Nat.digitChar b → a = b := by
  decide

theorem pad4_inj {a b : Nat} (ha : a ≤ 9999) (hb : b ≤ 9999)
    (h : pad4 a = pad4 b) : a = b := by
  simp only [pad4, List.cons.injEq, and_true] at h
  obtain ⟨h1, h2, h3, h4⟩ := h
  have ten : (0 : Nat) < 10 := by norm_num
  have e1 := digitChar_inj _ (Nat.mod_lt _ ten) _ (Nat.mod_lt _ ten) h1
  have e2 := digitChar_inj _ (Nat.mod_lt _ ten) _ (Nat.mod_lt _ ten) h2
  have e3 := digitChar_inj _ (Nat.mod_lt _ ten) _ (Nat.mod_lt _ ten) h3
  have e4 := digitChar_inj _ (Nat.mod_lt _ ten) _ (Nat.mod_lt _ ten) h4
  omega

/-! ## Substring characterization for ISO date strings

`str(year) in stored_date` is how `get_next_sequence` filters by year.  For
app-written dates (midnight ISO strings, zero-padded 4-digit year) and a
4-digit query year, the substring test holds exactly when the years agree:
the ISO string has non-digit characters at positions 4, 7, 10, 13 and 16,
so its only run of 4 consecutive digits is the year field itself. -/

theorem isoChars_length (d : Date) : (isoChars d).length = 19 := by
  simp [isoChars, pad4, pad2]

/-- The non-digit separators of an ISO midnight string sit at the positions
4, 7, 10, 13, 16. -/
theorem isoChars_sentinel (d : Date) (p : Nat)
    (hp : p = 4 ∨ p = 7 ∨ p = 10 ∨ p = 13 ∨ p = 16) :
    ∃ ch, (isoChars d)[p]? = some ch ∧ ch.isDigit = false := by
  rcases hp with rfl | rfl | rfl | rfl | rfl
  · exact ⟨'-', rfl, by decide⟩
  · exact ⟨'-', rfl, by decide⟩
  · exact ⟨'T', rfl, by decide⟩
  · exact ⟨':', rfl, by decide⟩
  · exact ⟨':', rfl, by decide⟩

/-- Every window of four consecutive positions starting at `1 ≤ i ≤ 15`
contains a separator position. -/
theorem window_hits_sentinel :
    ∀ i < 16, 1 ≤ i → ∃ p < 17, i ≤ p ∧ p ≤ i + 3 ∧
      (p = 4 ∨ p = 7 ∨ p = 10 ∨ p = 13 ∨ p = 16) := by
  decide

theorem infix_index {s N t H : List Char} (h : s ++ N ++ t = H) {p : Nat}
    (h1 : s.length ≤ p) (h2 : p - s.length < N.length) :
    N[p - s.length]? = H[p]? := by
  rw [← h, List.append_assoc, List.getElem?_append_right h1,
    List.getElem?_append_left h2]

theorem natChars_digit_at {y : Nat} (hy1 : 1000 ≤ y) (hy2 : y ≤ 9999) :
    ∀ j, j < 4 → ∃ m, m < 10 ∧ (natChars y)[j]? = some (Nat.digitChar m) := by
  rw [natChars_four hy1 hy2]
  intro j hj
  have ten : (0 : Nat) < 10 := by norm_num
  interval_cases j
  · exact ⟨y / 1000 % 10, Nat.mod_lt _ ten, rfl⟩
  · exact ⟨y / 100 % 10, Nat.mod_lt _ ten, rfl⟩
  · exact ⟨y / 10 % 10, Nat.mod_lt _ ten, rfl⟩
  · exact ⟨y % 10, Nat.mod_lt _ ten, rfl⟩

/-- The central fact: for a 4-digit query year and an app-written stored
date, Python's substring test `str(year) in iso` holds iff the stored
date's year equals the query year. -/
theorem year_infix_iff {y : Nat} (d : Date) (hy1 : 1000 ≤ y) (hy2 : y ≤ 9999)
    (hd : d.year ≤ 9999) : natChars y <:+: isoChars d ↔ d.year = y := by
  constructor
  · rintro ⟨s, t, hst⟩
    have hNlen : (natChars y).length = 4 := by
      rw [natChars_four hy1 hy2]; rfl
    have hlen : s.length + 4 + t.length = 19 := by
      have := congrArg List.length hst
      simp [isoChars_length, hNlen] at this
      omega
    cases hs : s with
    | cons c s' =>
      exfalso
      subst hs
      have hslen1 : 1 ≤ (c :: s').length := by simp
      have hslen15 : (c :: s').length < 16 := by omega
      obtain ⟨p, _, hip, hpi3, hpsep⟩ :=
        window_hits_sentinel (c :: s').length hslen15 hslen1
      obtain ⟨ch, hch, hchd⟩ := isoChars_sentinel d p hpsep
      have hj4 : p - (c :: s').length < (natChars y).length := by
        rw [hNlen]; omega
      have hidx := infix_index hst hip hj4
      rw [hch] at hidx
      obtain ⟨m, hm, hmj⟩ :=
        natChars_digit_at hy1 hy2 (p - (c :: s').length) (by omega)
      rw [hmj] at hidx
      have : (Nat.digitChar m).isDigit = false := by
        rw [Option.some.injEq] at hidx
        rw [hidx]; exact hchd
      rw [digitChar_isDigit m hm] at this
      exact absurd this (by simp)
    | nil =>
      subst hs
      rw [List.nil_append] at hst
      have hiso : isoChars d = pad4 d.year ++ '-' :: (pad2 d.month ++ '-' ::
          (pad2 d.day ++ 'T' :: ['0', '0', ':', '0', '0', ':', '0', '0'])) := rfl
      rw [hiso] at hst
      have hpadlen : (natChars y).length = (pad4 d.year).length := by
        rw [hNlen]; rfl
      obtain ⟨hYear, -⟩ := List.append_inj hst hpadlen
      rw [natChars_four hy1 hy2] at hYear
      exact (pad4_inj hd hy2 hYear.symm)
  · intro h
    refine ⟨[], '-' :: (pad2 d.month ++ '-' ::
      (pad2 d.day ++ 'T' :: ['0', '0', ':', '0', '0', ':', '0', '0'])), ?_⟩
    rw [List.nil_append, natChars_four hy1 hy2, ← h]
    rfl

/-! ## The sequence allocator against the spec's description -/

/-- Spec-side allocator for invoices (modelled from the spec's words): the
maximum `seq` among records of the given party code whose issue date falls
in `year`, plus one, or `1` if there is no such record.  The ghost
function `dates` recovers the structured issue date of each row. -/
def nextSequenceSpec (rows : List InvoiceRow) (dates : InvoiceRow → Date)
    (initials : String) (year : Nat) : Nat :=
  let rel := rows.filter (fun r => r.initials == initials && (dates r).year == year)
  if rel.isEmpty then 1
  else (rel.map (fun r => r.seq)).foldl Nat.max 0 + 1

/-- Spec-side allocator for purchase orders (modelled from the spec's
words), as `nextSequenceSpec`. -/
def nextPoSequenceSpec (rows : List PORow) (dates : PORow → Date)
    (initials : String) (year : Nat) : Nat :=
  let rel := rows.filter (fun r => r.initials == initials && (dates r).year == year)
  if rel.isEmpty then 1
  else (rel.map (fun r => r.seq)).foldl Nat.max 0 + 1

/-- Generic form of the allocator equivalence, over any row type with a
party-code field, a sequence field and a stored date string. -/
theorem next_seq_generic {α : Type} (rows : List α) (ini : α → String)
    (sq : α → Nat) (dtf : α → Option String) (dates : α → Date)
    (initials : String) (year : Nat) (hy1 : 1000 ≤ year) (hy2 : year ≤ 9999)
    (h : ∀ r ∈ rows, (dates r).year ≤ 9999 ∧ dtf r = some (isoDateTime (dates r))) :
    (let rows' := rows.filter (fun r => ini r == initials)
     if rows'.isEmpty then 1
     else
       let filtered := rows'.filter
         (fun r => pyInStr (pyStr year) ((dtf r).getD ""))
       if filtered.isEmpty then 1
       else (filtered.map sq).foldl Nat.max 0 + 1) =
    (let rel := rows.filter (fun r => ini r == initials && (dates r).year == year)
     if rel.isEmpty then 1 else (rel.map sq).foldl Nat.max 0 + 1) := by
  have key : ∀ r ∈ rows,
      pyInStr (pyStr year) ((dtf r).getD "") = ((dates r).year == year) := by
    intro r hr
    obtain ⟨hdy, hdt⟩ := h r hr
    rw [hdt]
    show pyInStr (pyStr year) (isoDateTime (dates r)) = _
    have hiff : ((pyStr year).data <:+: (isoDateTime (dates r)).data) ↔
        (dates r).year = year := year_infix_iff (dates r) hy1 hy2 hdy
    rw [pyInStr, Bool.eq_iff_iff]
    simp only [decide_eq_true_eq, beq_iff_eq]
    exact hiff
  have hsplit :
      rows.filter (fun r => ini r == initials && (dates r).year == year) =
      (rows.filter (fun r => ini r == initials)).filter
        (fun r => pyInStr (pyStr year) ((dtf r).getD "")) := by
    rw [List.filter_filter]
    apply List.filter_congr
    intro r hr
    rw [key r hr, Bool.and_comm]
  by_cases hE : (rows.filter (fun r => ini r == initials)).isEmpty
  · have hnil : rows.filter (fun r => ini r == initials) = [] :=
      List.isEmpty_iff.mp hE
    simp [hE, hsplit, hnil]
  · simp only [hsplit]
    simp [hE]

/-- A well-formed `invoices` row as the app writes it: party "MH",
sequence 5, issued 2025-11-15 (stored date string equals
`isoDateTime ⟨2025, 11, 15⟩`). -/
def mhRow2025 : InvoiceRow :=
  ⟨"Maria Herliana", "MH", 5, "005/INV-MH/XI/2025",
   some "2025-11-15T00:00:00", "2025-11-22T00:00:00", "Cream Minimalist",
   1000, "https://supabase.storage/invoices/x.pdf", "BCA", "Maria", "123",
   "CENAIDJA", "Rp"⟩

/-- C1 (amended): for a query year with four decimal digits
(1000-9999) and ledger rows whose stored issue dates are the ISO strings
the app itself writes, `get_next_sequence` / `get_next_po_sequence` return
the maximum sequence among the rows of that party code issued in that
year plus one, and 1 when no such row exists — in particular
`nextSequence("MH", 2026) = 1` when only 2025 records exist for "MH".
For shorter query years the code's substring filter can match records of
other years (see the counterexample), which is the only amendment. -/
theorem next_sequence_matches_spec
    (inv : List InvoiceRow) (po : List PORow)
    (dInv : InvoiceRow → Date) (dPo : PORow → Date)
    (initials : String) (year : Nat)
    (hy1 : 1000 ≤ year) (hy2 : year ≤ 9999)
    (hinv : ∀ r ∈ inv, (dInv r).year ≤ 9999 ∧
      r.invoice_date = some (isoDateTime (dInv r)))
    (hpo : ∀ r ∈ po, (dPo r).year ≤ 9999 ∧
      r.po_date = some (isoDateTime (dPo r))) :
    get_next_sequence inv initials year =
      nextSequenceSpec inv dInv initials year ∧
    get_next_po_sequence po initials year =
      nextPoSequenceSpec po dPo initials year := by
  constructor
  · exact next_seq_generic inv (fun r => r.initials) (fun r => r.seq)
      (fun r => r.invoice_date) dInv initials year hy1 hy2 hinv
  · exact next_seq_generic po (fun r => r.initials) (fun r => r.seq)
      (fun r => r.po_date) dPo initials year hy1 hy2 hpo

/-- C1 witness: with one "MH" invoice row issued 2025-11-15 on file,
`get_next_sequence` for ("MH", 2026) returns 1, regardless of the 2025
record; likewise for the empty purchase-order table. -/
theorem next_sequence_matches_spec_witness :
    get_next_sequence [mhRow2025] "MH" 2026 = 1 ∧
    get_next_po_sequence ([] : List PORow) "MH" 2026 = 1 := by
  have h := next_sequence_matches_spec [mhRow2025] ([] : List PORow)
    (fun _ => ⟨2025, 11, 15⟩) (fun _ => ⟨2025, 11, 15⟩) "MH" 2026
    (by decide) (by decide) (by decide) (by decide)
  exact ⟨h.1.trans (by decide), h.2.trans (by decide)⟩

/-- C1 counterexample: the code filters by substring containment of
`str(year)` in the stored date string, not by the issue year.  For the
query year 202 and a single "MH" row issued in 2025 (so that no record at
all falls in year 202), the claim demands 1, but `get_next_sequence`
returns 6 because `"202"` is a substring of `"2025-11-15T00:00:00"`. -/
theorem next_sequence_year_substring_counterexample :
    get_next_sequence [mhRow2025] "MH" 202 = 6 ∧
    nextSequenceSpec [mhRow2025] (fun _ => ⟨2025, 11, 15⟩) "MH" 202 = 1 := by
  exact ⟨by decide, by decide⟩

/-! ## Concurrency: the read-max-then-insert race -/

/-- The classic lost-update schedule on the invoice ledger: two sessions
submit for the same party ("MH") and date (2025-11-15).  Both execute
`get_next_sequence` against the same table state before either insert —
the code takes no lock, has no unique constraint and no retry loop, so
this interleaving is realizable — and then both `save_invoice_record`
inserts land. -/
def raceDb : DB :=
  let db0 : DB := ⟨[], []⟩
  let seqA := get_next_sequence db0.invoices "MH" 2025
  let seqB := get_next_sequence db0.invoices "MH" 2025
  let db1 := save_invoice_record "Maria Herliana" "MH" seqA
    (build_invoice_number "MH" seqA ⟨2025, 11, 15⟩) ⟨2025, 11, 15⟩
    ⟨2025, 11, 22⟩ "Cream Minimalist" 1000 "urlA" "BCA" "Maria" "123"
    "CENAIDJA" "Rp" db0
  save_invoice_record "Maria Herliana" "MH" seqB
    (build_invoice_number "MH" seqB ⟨2025, 11, 15⟩) ⟨2025, 11, 15⟩
    ⟨2025, 11, 22⟩ "Cream Minimalist" 1000 "urlB" "BCA" "Maria" "123"
    "CENAIDJA" "Rp" db1

/-- C2: the claim (sequences `{1..N}` with no duplicates even under
interleaved concurrent issuance) is what the spec demands, but the code
implements no concurrency-safety mechanism: in the interleaved schedule
`raceDb`, both callers compute sequence 1 for ("MH", 2025) and two records
with the same (code, year, sequence) are recorded, instead of the claimed
`{1, 2}`. -/
theorem duplicate_sequence_under_interleaving :
    raceDb.invoices.map (fun r => (r.initials, r.seq)) =
      [("MH", 1), ("MH", 1)] ∧
    ¬ (raceDb.invoices.map (fun r => (r.initials, r.seq))).Nodup ∧
    raceDb.invoices.map (fun r => r.invoice_date) =
      [some "2025-11-15T00:00:00", some "2025-11-15T00:00:00"] := by
  exact ⟨by decide, by decide, by decide⟩

/-! ## Document number format against the spec -/

/-- Roman numeral of a calendar month 1-12 (modelled from the spec's
format `MONTH_ROMAN`; the junk value for out-of-range inputs is never
reached for valid dates). -/
def monthRomanSpec (m : Nat) : String :=
  match m with
  | 1 => "I" | 2 => "II" | 3 => "III" | 4 => "IV" | 5 => "V" | 6 => "VI"
  | 7 => "VII" | 8 => "VIII" | 9 => "IX" | 10 => "X" | 11 => "XI"
  | 12 => "XII" | _ => ""

/-- Spec-side document number (modelled from the spec's words):
`SEQ(3-digit)/KIND-CODE/MONTH_ROMAN/YEAR` with a 4-digit year, as in the
spec's example `002/INV-MH/XI/2025`. -/
def documentNumberSpec (kind code : String) (seq : Nat) (dt : Date) : String :=
  String.mk (padZeros 3 (natChars seq)) ++ "/" ++ kind ++ "-" ++ code ++
    "/" ++ monthRomanSpec dt.month ++ "/" ++ String.mk (pad4 dt.year)

theorem to_roman_month_valid (d : Date) (h1 : 1 ≤ d.month)
    (h2 : d.month ≤ 12) : to_roman_month d = monthRomanSpec d.month := by
  interval_cases h : d.month <;> rw [to_roman_month, h] <;> rfl

/-- C3 (amended): for valid dates whose year has four digits (1000-9999,
which covers every date a user can enter in practice),
`build_invoice_number` and `build_po_number` produce exactly
`SEQ(3-digit)/KIND-CODE/MONTH_ROMAN/YEAR` with a 4-digit year — e.g.
`002/INV-MH/XI/2025`.  For years below 1000 the code renders the year
with fewer digits (see the counterexample), the only amendment. -/
theorem build_number_format (initials : String) (seq : Nat) (d : Date)
    (hd : ValidDate d) (hy : 1000 ≤ d.year) :
    build_invoice_number initials seq d =
      documentNumberSpec "INV" initials seq d ∧
    build_po_number initials seq d =
      documentNumberSpec "PO" initials seq d := by
  obtain ⟨-, hy2, hm1, hm2, -, -⟩ := hd
  have hm := to_roman_month_valid d hm1 hm2
  have hyr : pyStr d.year = String.mk (pad4 d.year) := by
    rw [pyStr, natChars_four hy hy2]
  constructor <;>
    (apply String.ext
     simp [build_invoice_number, build_po_number, documentNumberSpec, hm, hyr])

/-- C3 witness: the spec's own example,
`formatDocumentNumber("MH", 2, 2025-11-15) = "002/INV-MH/XI/2025"`. -/
theorem build_number_format_witness :
    build_invoice_number "MH" 2 ⟨2025, 11, 15⟩ = "002/INV-MH/XI/2025" ∧
    build_po_number "MH" 2 ⟨2025, 11, 15⟩ = "002/PO-MH/XI/2025" := by
  have h := build_number_format "MH" 2 ⟨2025, 11, 15⟩ (by decide) (by decide)
  exact ⟨h.1.trans (by decide), h.2.trans (by decide)⟩

/-- C3 counterexample: for the valid Python date 0202-11-15 the code
renders the year as `"202"` — three characters, not the claimed 4-digit
year — so the produced string differs from the claimed format. -/
theorem build_number_year_counterexample :
    build_invoice_number "MH" 2 ⟨202, 11, 15⟩ = "002/INV-MH/XI/202" ∧
    documentNumberSpec "INV" "MH" 2 ⟨202, 11, 15⟩ = "002/INV-MH/XI/0202" ∧
    build_invoice_number "MH" 2 ⟨202, 11, 15⟩ ≠
      documentNumberSpec "INV" "MH" 2 ⟨202, 11, 15⟩ := by
  exact ⟨by decide, by decide, by decide⟩

/-! ## The code derivation `make_initials` -/

/-- C4: `make_initials` is a total Lean function (hence total and
deterministic over all display-name strings), and on the token list
obtained by trimming and whitespace-splitting the name: zero tokens give
the sentinel `"XX"`; one token gives its first two characters upper-cased
(one character for a one-character token, since `take 2` keeps what is
there); two or more tokens give the upper-cased first characters of the
first and last tokens. -/
theorem make_initials_spec (name : String) :
    (let parts := (pySplit (pyStrip name.data)).filter (fun p => !p.isEmpty)
     (parts = [] → make_initials name = "XX") ∧
     (∀ t, parts = [t] →
       make_initials name = String.mk ((t.take 2).map Char.toUpper)) ∧
     (∀ t ts, parts = t :: ts → ts ≠ [] →
       make_initials name =
         String.mk ((t.take 1 ++ (ts.getLastD []).take 1).map Char.toUpper))) := by
  refine ⟨?_, ?_, ?_⟩
  · intro h
    simp only [make_initials, h]
  · intro t h
    simp only [make_initials, h]
  · intro t ts h hne
    cases ts with
    | nil => exact absurd rfl hne
    | cons t2 ts2 =>
      simp only [make_initials, h]
      rw [List.getLastD_cons, List.getLastD_cons, List.getLastD_cons]

/-- C4 witness: the spec's examples — `"Maria Herliana" -> "MH"` (via the
two-token branch of the theorem), `"   " -> "XX"`, `"Madonna" -> "MA"`,
and a one-character name `"s" -> "S"`. -/
theorem make_initials_spec_witness :
    make_initials "Maria Herliana" = "MH" ∧ make_initials "   " = "XX" ∧
    make_initials "Madonna" = "MA" ∧ make_initials "s" = "S" := by
  have h := (make_initials_spec "Maria Herliana").2.2
    ['M', 'a', 'r', 'i', 'a'] [['H', 'e', 'r', 'l', 'i', 'a', 'n', 'a']]
    (by decide) (by decide)
  exact ⟨h.trans (by decide), by decide, by decide, by decide⟩

/-! ## Upload failure and the ledger append -/

/-- A submit run in which the Blob Store upload raises
(`uploadOk = false`) while saving is enabled. -/
def failedUploadRun : SubmitResult :=
  invoiceSubmit ⟨[], []⟩ [⟨"Consulting", "", 1000⟩] "Maria Herliana"
    "Jl. Kebon 1" "Client Co" "Jl. Kebon 2" "BCA" "Maria" "123" "CENAIDJA"
    "Rp" "Cream Minimalist" ⟨2025, 11, 15⟩ ⟨2025, 11, 22⟩ true false
    "20251115093000123456"

/-- C5 counterexample: when the upload fails the handler does not abort —
the `except` branch sets `pdf_url = None` and execution continues to
`save_invoice_record`, so a ledger record is created, and its stored
locator is `""` (`pdf_url or ""`), referencing no existing blob. -/
theorem record_created_despite_upload_failure :
    failedUploadRun.pdf_url = none ∧
    failedUploadRun.db.invoices.length = 1 ∧
    failedUploadRun.db.invoices.map (fun r => r.pdf_path) = [""] := by
  exact ⟨by decide, by decide, by decide⟩

/-- C5 (amended): if the Blob Store upload fails during an invoice
generation request with saving enabled, the request does not abort: a
ledger record is still appended, and its blob locator is the empty
string — so ledger records reference an existing blob only when their
upload succeeded, not unconditionally. -/
theorem upload_failure_still_appends (db : DB) (line_items : List Item)
    (vendor_name vendor_address name bill_address : String)
    (bank account_name account_no swift : String)
    (currency_symbol template_choice : String)
    (invoice_date due_date : Date) (now : String) :
    (invoiceSubmit db line_items vendor_name vendor_address name bill_address
        bank account_name account_no swift currency_symbol template_choice
        invoice_date due_date true false now).db.invoices.length =
      db.invoices.length + 1 ∧
    ((invoiceSubmit db line_items vendor_name vendor_address name bill_address
        bank account_name account_no swift currency_symbol template_choice
        invoice_date due_date true false now).db.invoices.map
          (fun r => r.pdf_path)).getLast? = some "" := by
  constructor
  · simp [invoiceSubmit, save_invoice_record]
  · simp [invoiceSubmit, save_invoice_record, List.getLast?_concat]

/-! ## Remittance lookup -/

/-- C6 (amended): with the `name` guard passed, a successful lookup
returns the bank/account/SWIFT details of the party's most recently
created prior invoice record (or the empty dict when none exists); but a
lookup error is NOT swallowed — `get_last_remittance` has no exception
handling, so the error propagates to the caller instead of degrading to
"no prior data". -/
theorem get_last_remittance_spec (name : String) (rows : List InvoiceRow)
    (e : String) (h : name ≠ "") :
    get_last_remittance name (.ok rows) =
      .ok (match (rows.filter (fun r => r.name == name)).getLast? with
           | some r => ⟨r.bank, r.account_name, r.account_no, r.swift⟩
           | none => emptyRemittance) ∧
    get_last_remittance name (.error e) = .error e := by
  constructor
  · rw [get_last_remittance, if_neg h]
    have hl : (rows.filter (fun r => r.name == name)).getLast? =
        ((rows.filter (fun r => r.name == name)).reverse).head? :=
      (List.head?_reverse _).symm
    cases hrev : (rows.filter (fun r => r.name == name)).reverse with
    | nil =>
      rw [hrev] at hl
      rw [hl]
      rfl
    | cons r rest =>
      rw [hrev] at hl
      rw [hl]
      rfl
  · rw [get_last_remittance, if_neg h]

/-- C6 witness: with one prior "Maria Herliana" record on file the lookup
returns its remittance details; with a failing backend the error comes
back verbatim. -/
theorem get_last_remittance_spec_witness :
    get_last_remittance "Maria Herliana" (.ok [mhRow2025]) =
      .ok ⟨"BCA", "Maria", "123", "CENAIDJA"⟩ ∧
    get_last_remittance "Maria Herliana" (.error "connection reset") =
      .error "connection reset" := by
  have h := get_last_remittance_spec "Maria Herliana" [mhRow2025]
    "connection reset" (by decide)
  exact ⟨h.1.trans (by rfl), h.2⟩

/-- C6 counterexample: a failing lookup propagates the error — it does
not return the "no prior data" empty dict, contradicting the claim that
errors are swallowed. -/
theorem lookup_error_not_swallowed :
    get_last_remittance "Maria Herliana" (.error "db down") =
      .error "db down" ∧
    get_last_remittance "Maria Herliana" (.error "db down") ≠
      .ok emptyRemittance := by
  refine ⟨rfl, fun h => ?_⟩
  rw [show get_last_remittance "Maria Herliana" (.error "db down") =
    (.error "db down" : Except String Remittance) from rfl] at h
  exact Except.noConfusion h

/-! ## Filenames handed to the Blob Store -/

theorem string_append_mid_inj (a b : String) {n1 n2 : String}
    (h : a ++ n1 ++ b = a ++ n2 ++ b) : n1 = n2 := by
  apply String.ext
  have hd := congrArg String.data h
  simp only [String.data_append] at hd
  exact List.append_cancel_left (List.append_cancel_right hd)

/-- A purchase-order run with everything fixed except the clock. -/
def poRun (now : String) : PoSubmitResult :=
  poSubmit ⟨[], []⟩ [⟨"Widget", "", 500⟩] "Maria Herliana" "Paperbean Co"
    "Jl. Kebon 3" "Rp" "Cream Minimalist" ⟨2025, 11, 15⟩ true now

/-- C7 counterexample: the PO handler's filename is just
`po_no.replace('/', '-') + ".pdf"` with no timestamp, so two PO requests
at different times with the same document number hand the Blob Store the
same filename — filenames are not unique per call. -/
theorem po_filename_ignores_timestamp :
    (poRun "20250101000000000001").filename =
      (poRun "20250101000000000002").filename ∧
    (poRun "20250101000000000001").filename = "001-PO-MH-XI-2025.pdf" := by
  exact ⟨by decide, by decide⟩

/-- C7 (amended): the invoice handler's filename is the document number
with `/` replaced by `-`, an underscore, the high-resolution timestamp and
`.pdf` — so two invoice requests with the same inputs but different
timestamps get different filenames.  The PO handler instead uses only the
document number with `/` replaced by `-` plus `.pdf`, with no timestamp:
repeated PO requests with the same number reuse the same filename. -/
theorem blob_filenames (db : DB) (line_items po_items : List Item)
    (vendor_name vendor_address name bill_address : String)
    (bank account_name account_no swift : String)
    (currency_symbol template_choice : String)
    (issuer_name issuer_address template_po : String)
    (invoice_date due_date po_date : Date) (save_pdf uploadOk save_po : Bool)
    (now now1 now2 : String) (hne : now1 ≠ now2) :
    (invoiceSubmit db line_items vendor_name vendor_address name bill_address
        bank account_name account_no swift currency_symbol template_choice
        invoice_date due_date save_pdf uploadOk now).pdf_filename =
      pyReplace (invoiceSubmit db line_items vendor_name vendor_address name
        bill_address bank account_name account_no swift currency_symbol
        template_choice invoice_date due_date save_pdf uploadOk
        now).invoice_no '/' '-' ++ "_" ++ now ++ ".pdf" ∧
    (invoiceSubmit db line_items vendor_name vendor_address name bill_address
        bank account_name account_no swift currency_symbol template_choice
        invoice_date due_date save_pdf uploadOk now1).pdf_filename ≠
      (invoiceSubmit db line_items vendor_name vendor_address name bill_address
        bank account_name account_no swift currency_symbol template_choice
        invoice_date due_date save_pdf uploadOk now2).pdf_filename ∧
    (poSubmit db po_items vendor_name issuer_name issuer_address
        currency_symbol template_po po_date save_po now).filename =
      pyReplace (poSubmit db po_items vendor_name issuer_name issuer_address
        currency_symbol template_po po_date save_po now).po_no '/' '-' ++
        ".pdf" ∧
    (poSubmit db po_items vendor_name issuer_name issuer_address
        currency_symbol template_po po_date save_po now1).filename =
      (poSubmit db po_items vendor_name issuer_name issuer_address
        currency_symbol template_po po_date save_po now2).filename := by
  refine ⟨rfl, fun heq => hne ?_, rfl, rfl⟩
  exact string_append_mid_inj _ ".pdf" heq

/-- C7 witness: two invoice submissions identical except for their
timestamps produce distinct filenames of the documented shape. -/
theorem blob_filenames_witness :
    (invoiceSubmit ⟨[], []⟩ [] "Maria Herliana" "" "" "" "" "" "" "" "Rp"
        "Cream Minimalist" ⟨2025, 11, 15⟩ ⟨2025, 11, 22⟩ true true
        "20251115093000123456").pdf_filename =
      "001-INV-MH-XI-2025_20251115093000123456.pdf" ∧
    (invoiceSubmit ⟨[], []⟩ [] "Maria Herliana" "" "" "" "" "" "" "" "Rp"
        "Cream Minimalist" ⟨2025, 11, 15⟩ ⟨2025, 11, 22⟩ true true
        "20251115093000123456").pdf_filename ≠
      (invoiceSubmit ⟨[], []⟩ [] "Maria Herliana" "" "" "" "" "" "" "" "Rp"
        "Cream Minimalist" ⟨2025, 11, 15⟩ ⟨2025, 11, 22⟩ true true
        "20251115093000123457").pdf_filename := by
  have h := blob_filenames ⟨[], []⟩ [] [] "Maria Herliana" "" "" "" "" "" ""
    "" "Rp" "Cream Minimalist" "" "" "" ⟨2025, 11, 15⟩ ⟨2025, 11, 22⟩
    ⟨2025, 11, 15⟩ true true true "now" "20251115093000123456"
    "20251115093000123457" (by decide)
  exact ⟨by decide, h.2.1⟩

/-! ## History view -/

theorem reverse_take_eq_drop_reverse {α : Type} (l : List α) :
    ∀ n, l.reverse.take n = (l.drop (l.length - n)).reverse := by
  induction l using List.reverseRecOn with
  | nil => intro n; simp
  | append_singleton l a ih =>
    intro n
    cases n with
    | zero => simp
    | succ m =>
      have hk : l.length - m ≤ l.length := by omega
      have hlen : (l ++ [a]).length - (m + 1) = l.length - m := by
        simp
      calc (l ++ [a]).reverse.take (m + 1)
          = (a :: l.reverse).take (m + 1) := by simp [List.reverse_append]
        _ = a :: l.reverse.take m := rfl
        _ = a :: (l.drop (l.length - m)).reverse := by rw [ih m]
        _ = ((l.drop (l.length - m)) ++ [a]).reverse := by
              simp [List.reverse_append]
        _ = ((l ++ [a]).drop (l.length - m)).reverse := by
              rw [List.drop_append_of_le_length hk]
        _ = ((l ++ [a]).drop ((l ++ [a]).length - (m + 1))).reverse := by
              rw [hlen]

/-- C8: `fetch_history limit` returns the `limit` most recently appended
records newest-first: it is the reversal of the ledger's last `limit`
rows, its length is `min limit n`, appending a row and re-invoking puts
the new row first (no caching), and after 5 appends `fetch_history 3`
returns exactly the last 3 rows in reverse insertion order. -/
theorem fetch_history_spec (inv : List InvoiceRow) (limit : Nat) :
    fetch_history inv limit = (inv.drop (inv.length - limit)).reverse ∧
    (fetch_history inv limit).length = min limit inv.length ∧
    (∀ r, fetch_history (inv ++ [r]) (limit + 1) =
      r :: fetch_history inv limit) ∧
    (∀ r1 r2 r3 r4 r5 : InvoiceRow,
      fetch_history [r1, r2, r3, r4, r5] 3 = [r5, r4, r3]) := by
  refine ⟨reverse_take_eq_drop_reverse inv limit, ?_, ?_, ?_⟩

  · simp [fetch_history]
  · intro r
    simp [fetch_history, List.reverse_append]
  · intro r1 r2 r3 r4 r5
    rfl

/-! ## Disjoint sequence spaces -/

/-- C9: invoice and purchase-order sequences are allocated from the two
separate tables: inserting an invoice record never changes the next PO
sequence and vice versa, and on an empty table each allocator starts at
1 for every (code, year). -/
theorem sequence_spaces_independent (db : DB) (code : String) (year : Nat)
    (n i : String) (s : Nat) (no : String) (d1 d2 : Date) (tpl : String)
    (tot : Nat) (p b an ac sw cur : String)
    (vn i2 : String) (s2 : Nat) (no2 : String) (d3 : Date) (tpl2 : String)
    (tot2 : Nat) (u isn isa cur2 : String) :
    get_next_po_sequence
        (save_invoice_record n i s no d1 d2 tpl tot p b an ac sw cur
          db).purchase_orders code year =
      get_next_po_sequence db.purchase_orders code year ∧
    get_next_sequence
        (save_po_record vn i2 s2 no2 d3 tpl2 tot2 u isn isa cur2
          db).invoices code year =
      get_next_sequence db.invoices code year ∧
    get_next_sequence ([] : List InvoiceRow) code year = 1 ∧
    get_next_po_sequence ([] : List PORow) code year = 1 := by
  exact ⟨rfl, rfl, rfl, rfl⟩

/-! ## Line-item cleaning -/

/-- C10: the invoice handler drops every submitted item whose name is
empty before generation: the item list handed to the renderer is exactly
the non-empty-named items, and the total — in the renderer payload, in
the handler result and in the appended ledger record — is the sum of the
amounts of exactly those items. -/
theorem cleaned_items_spec (db : DB) (line_items : List Item)
    (vendor_name vendor_address name bill_address : String)
    (bank account_name account_no swift : String)
    (currency_symbol template_choice : String)
    (invoice_date due_date : Date) (now : String) :
    (∀ save_pdf uploadOk : Bool,
      (invoiceSubmit db line_items vendor_name vendor_address name
          bill_address bank account_name account_no swift currency_symbol
          template_choice invoice_date due_date save_pdf uploadOk
          now).data.items = line_items.filter (fun it => it.name != "") ∧
      (invoiceSubmit db line_items vendor_name vendor_address name
          bill_address bank account_name account_no swift currency_symbol
          template_choice invoice_date due_date save_pdf uploadOk
          now).data.total =
        ((line_items.filter (fun it => it.name != "")).map
          (fun it => it.amount)).sum ∧
      (invoiceSubmit db line_items vendor_name vendor_address name
          bill_address bank account_name account_no swift currency_symbol
          template_choice invoice_date due_date save_pdf uploadOk
          now).total =
        ((line_items.filter (fun it => it.name != "")).map
          (fun it => it.amount)).sum) ∧
    (∀ uploadOk : Bool,
      ((invoiceSubmit db line_items vendor_name vendor_address name
          bill_address bank account_name account_no swift currency_symbol
          template_choice invoice_date due_date true uploadOk
          now).db.invoices.map (fun r => r.total)).getLast? =
        some (((line_items.filter (fun it => it.name != "")).map
          (fun it => it.amount)).sum)) := by
  refine ⟨fun save_pdf uploadOk => ⟨rfl, rfl, rfl⟩, fun uploadOk => ?_⟩
  simp [invoiceSubmit, save_invoice_record, List.getLast?_concat]

end Paperbean
